import Mathlib

/-!
Verification of the file-intake validation and persistence pipeline of the
candidate-application web app.

The JavaScript source is shallowly embedded:
* strings manipulated character-wise are `List Char`; other strings are `String`
* byte buffers (`ArrayBuffer` / `Uint8Array`) are `List Nat`
* fallible / branching code becomes explicit `Option` / nested `if`s
* the two request handlers (`/api/applications` and `/api/applications-v2`)
  become pure functions from a database state plus the outcomes of the
  external calls (Cloudinary uploads, Mongo save) to a response and a new
  database state.
-/

namespace Forms

/-- Generic list-level check that `pat` occurs at the start of `s`. -/
def listStartsWith : List Char → List Char → Bool
  | [], _ => true
  | _ :: _, [] => false
  | p :: ps, c :: cs => p == c && listStartsWith ps cs

/-- `pat` occurs at the end of `s`. -/
def listEndsWith (pat s : List Char) : Bool :=
  listStartsWith pat.reverse s.reverse

/-- The string contains two consecutive dots somewhere. -/
def hasDotDot : List Char → Bool
  | '.' :: '.' :: _ => true
  | _ :: rest => hasDotDot rest
  | [] => false

/-- ASCII lower-casing of a single character (JavaScript regexes with the `i`
flag and `toLowerCase` agree with this on the ASCII range, which is all the
embedded checks compare against). -/
def asciiLower (c : Char) : Char :=
  if 'A' ≤ c && c ≤ 'Z' then Char.ofNat (c.toNat + 32) else c

namespace Validation

/-! ### src/lib/validation.js -/

/-- `ALLOWED_MIME_TYPES` lookup: the allow-list of declared MIME types per
category key, `none` for an unknown key. -/
def allowedMimeTypesFor : String → Option (List String)
  | "IMAGE" => some ["image/jpeg", "image/png", "image/webp"]
  | "PDF" => some ["application/pdf"]
  | _ => none

/-- `FILE_SIZE_LIMITS` lookup: the byte ceiling per category key. -/
def fileSizeLimitsFor : String → Option Nat
  | "IMAGE" => some (5 * 1024 * 1024)
  | "PDF" => some (10 * 1024 * 1024)
  | _ => none

/-- `FILE_SIGNATURES` lookup: the known magic-number byte sequences for a
declared MIME type. -/
def fileSignaturesFor : String → Option (List (List Nat))
  | "image/jpeg" => some [[0xFF, 0xD8, 0xFF]]
  | "image/png" => some [[0x89, 0x50, 0x4E, 0x47]]
  | "image/webp" => some [[0x52, 0x49, 0x46, 0x46]]
  | "application/pdf" => some [[0x25, 0x50, 0x44, 0x46]]
  | _ => none

/-- A browser `File` object as the validators see it: `name`, declared MIME
`type`, `size`, and the byte content that `arrayBuffer()` would read. -/
structure JsFile where
  name : List Char
  type : String
  size : Nat
  content : List Nat
  deriving DecidableEq

/-- Result shape `{ valid, error?, sanitizedName?, buffer? }` returned by the
validators. -/
structure VResult where
  valid : Bool
  error : Option String := none
  sanitizedName : Option (List Char) := none
  buffer : Option (List Nat) := none
  deriving DecidableEq

/-- `validateMimeType(file, category)`: the declared type must be in the
category's allow-list. -/
def validateMimeType (file : JsFile) (category : String) : VResult :=
  match allowedMimeTypesFor category with
  | none => { valid := false, error := some "Invalid category" }
  | some allowedTypes =>
    if allowedTypes.contains file.type then
      { valid := true }
    else
      { valid := false, error := some "Invalid MIME type" }

/-- `validateFileSize(file, category)`: rejects empty files and files above
the category ceiling (the JS error text interpolates the sizes; the message
here is a fixed stand-in, only `valid` is reasoned about). -/
def validateFileSize (file : JsFile) (category : String) : VResult :=
  match fileSizeLimitsFor category with
  | none => { valid := false, error := some "Invalid category" }
  | some maxSize =>
    if file.size = 0 then
      { valid := false, error := some "File is empty" }
    else if file.size > maxSize then
      { valid := false, error := some "File size exceeds limit" }
    else
      { valid := true }

/-- One signature comparison: JS `signature.every((byte, i) => u8[i] === byte)`;
an index past the end of the buffer reads `undefined`, which never equals a
byte, so this is exactly "the signature is an initial run of the buffer". -/
def sigMatches (buffer sig : List Nat) : Bool :=
  (List.range sig.length).all fun i => buffer.get? i == sig.get? i

/-- `validateFileSignature(buffer, mimeType)`: `true` when no signature is on
file for the MIME type, otherwise some known signature must match. -/
def validateFileSignature (buffer : List Nat) (mimeType : String) : Bool :=
  match fileSignaturesFor mimeType with
  | none => true
  | some signatures => signatures.any fun s => sigMatches buffer s

/-- Left-to-right single-pass removal of `../`, as JS
`replace(/\.\.\//g, '')`: each match is dropped and scanning resumes after it.
-/
def stripDotDotSlash : List Char → List Char
  | '.' :: '.' :: '/' :: rest => stripDotDotSlash rest
  | c :: rest => c :: stripDotDotSlash rest
  | [] => []

/-- Character class `[a-zA-Z0-9._-]` of the sanitizer. -/
def isGoodChar (c : Char) : Bool :=
  ('a' ≤ c && c ≤ 'z') || ('A' ≤ c && c ≤ 'Z') || ('0' ≤ c && c ≤ '9') ||
    c == '.' || c == '_' || c == '-'

/-- JS `replace(/[^a-zA-Z0-9._-]/g, '_')`. -/
def replaceBadChars (s : List Char) : List Char :=
  s.map fun c => if isGoodChar c then c else '_'

/-- `sanitizeFilename(filename)` of src/lib/validation.js: strip `../`,
replace disallowed characters with `_`, then `substring(0, 100)`. -/
def sanitizeFilename (filename : List Char) : List Char :=
  (replaceBadChars (stripDotDotSlash filename)).take 100

/-- `containsExternalUrl(value)`: JS regex `/^https?:\/\//i` tested against
the string. -/
def containsExternalUrl (value : List Char) : Bool :=
  let l := value.map asciiLower
  listStartsWith "http://".toList l || listStartsWith "https://".toList l

/-- `validateFile(file, category)` of src/lib/validation.js; `none` models a
missing value or one that is not a `File` instance. -/
def validateFile (file : Option JsFile) (category : String) : VResult :=
  match file with
  | none => { valid := false, error := some "No valid file provided" }
  | some f =>
    if containsExternalUrl f.name then
      { valid := false, error := some "External URLs not allowed" }
    else
      let mimeValidation := validateMimeType f category
      if !mimeValidation.valid then mimeValidation
      else
        let sizeValidation := validateFileSize f category
        if !sizeValidation.valid then sizeValidation
        else
          let buffer := f.content
          if !validateFileSignature buffer f.type then
            { valid := false, error := some "File content does not match declared type" }
          else
            { valid := true, sanitizedName := some (sanitizeFilename f.name),
              buffer := some buffer }

end Validation

namespace UploadUtil

/-! ### The file-upload validation utility (client-side variant of the
validator, `FILE_CONFIG` / `validateFileType` / `sanitizeFileName`). -/

/-- `FILE_CONFIG[category].allowedTypes`. -/
def fileConfigAllowedTypes : String → Option (List String)
  | "image" => some ["image/jpeg", "image/jpg", "image/png", "image/webp"]
  | "pdf" => some ["application/pdf"]
  | _ => none

/-- `FILE_CONFIG[category].allowedExtensions`. -/
def fileConfigAllowedExtensions : String → Option (List (List Char))
  | "image" => some [".jpg".toList, ".jpeg".toList, ".png".toList, ".webp".toList]
  | "pdf" => some [".pdf".toList]
  | _ => none

/-- `FILE_CONFIG[category].maxSize`. -/
def fileConfigMaxSize : String → Option Nat
  | "image" => some (5 * 1024 * 1024)
  | "pdf" => some (10 * 1024 * 1024)
  | _ => none

open Validation (JsFile VResult)

/-- `validateFileType(file, category)`: declared MIME type must be in the
config's allow-list and the lower-cased name must end in an allowed
extension. -/
def validateFileType (file : JsFile) (category : String) : VResult :=
  match fileConfigAllowedTypes category, fileConfigAllowedExtensions category with
  | some allowedTypes, some allowedExtensions =>
    if !(allowedTypes.contains file.type) then
      { valid := false, error := some "Invalid file type" }
    else
      let fileName := file.name.map asciiLower
      if allowedExtensions.any (fun ext => listEndsWith ext fileName) then
        { valid := true }
      else
        { valid := false, error := some "Invalid file extension" }
  | _, _ => { valid := false, error := some "Invalid file category" }

/-- JS `lastIndexOf('.')`: index of the last dot, `-1` when there is none. -/
def lastIndexOfDot (s : List Char) : Int :=
  match s.reverse.findIdx? (· == '.') with
  | none => -1
  | some j => Int.ofNat (s.length - 1 - j)

/-- `sanitizeFileName(fileName)` of the upload utility: strip `../`, replace
disallowed characters with `_`, and when the result exceeds 100 characters
reattach the extension taken from the last dot after truncating the stem.
JS `substring` clamps negative arguments to `0`, which `Int.toNat` mirrors:
with no dot, `substring(-1)` is the whole string. -/
def sanitizeFileName (fileName : List Char) : List Char :=
  let sanitized := Validation.replaceBadChars (Validation.stripDotDotSlash fileName)
  if sanitized.length > 100 then
    let ext := sanitized.drop (lastIndexOfDot sanitized).toNat
    sanitized.take ((100 - (ext.length : Int)).toNat) ++ ext
  else
    sanitized

end UploadUtil

namespace MongoLib

/-! ### The MongoDB connection helper (`connectDB` with its module-level
`cached = { conn, promise }` state).

The sequential shallow embedding passes the cache explicitly and takes the
outcome of the (single) awaited connection attempt as a parameter. The third
component of the result records whether this call created a fresh connection
promise (the slow path) rather than reusing a cached one. -/

/-- The module-level cache `{ conn, promise }`; connections and promises are
identified by numbers. -/
structure Cache where
  conn : Option Nat
  promise : Option Nat
  deriving DecidableEq

/-- `connectDB()`: return the cached connection when present; otherwise await
the cached in-flight promise, creating one when absent. The promise's own
rejection handler clears `cached.promise`, and the `catch` around the `await`
clears both `cached.promise` and `cached.conn` before rethrowing. -/
def connectDB (cache : Cache) (attemptId : Nat) (attemptResult : Except String Nat) :
    Except String Nat × Cache × Bool :=
  match cache.conn with
  | some c => (Except.ok c, cache, false)
  | none =>
    let started := cache.promise.isNone
    let promiseId := cache.promise.getD attemptId
    match attemptResult with
    | Except.ok c => (Except.ok c, ⟨some c, some promiseId⟩, started)
    | Except.error e => (Except.error e, ⟨none, none⟩, started)

end MongoLib

namespace Orchestrator

open Validation (JsFile)

/-! ### The two submission endpoints, as pure state transformers.

External effects (Cloudinary uploads, the Mongo `save`) are parameters holding
the outcome the external service would have produced; the database is the list
of stored `Application` documents plus a count of stored `FileUpload`
documents. -/

/-- Cloudinary `uploadToCloudinary` outcome: `{success:true, url, publicId}`
or `{success:false, error}`. -/
inductive UploadOutcome
  | ok (url publicId : String)
  | err (msg : String)
  deriving DecidableEq

/-- One stored `Application` document. The schema's `lowercase`/`trim`
setters mean the stored email is always normalized. -/
structure AppRecord where
  id : Nat
  emailAddress : String
  deriving DecidableEq

/-- Database state: stored applications and the number of stored `FileUpload`
documents. -/
structure DB where
  applications : List AppRecord
  fileRecords : Nat
  nextId : Nat
  deriving DecidableEq

/-- ASCII whitespace characters removed by `trim` (model of the JS trim on
the whitespace the pipeline can see). -/
def isWsChar (c : Char) : Bool :=
  c == ' ' || c == '\t' || c == '\n' || c == '\r'

/-- The email normalization performed by the `emailAddress` schema path's
`lowercase` and `trim` setters. Mongoose (v5+) also runs these setters on
`findOne` filter values, so both the stored value and the duplicate-check
query value pass through this function. -/
def normalizeEmail (s : String) : String :=
  String.mk ((((s.toList.map asciiLower).dropWhile isWsChar).reverse.dropWhile
    isWsChar).reverse)

/-- `findOne({ emailAddress })` hit: some stored application has the
normalized query email. -/
def hasDuplicateEmail (db : DB) (emailAddress : String) : Bool :=
  db.applications.any fun r => r.emailAddress == normalizeEmail emailAddress

/-- HTTP response as the claims observe it. -/
structure Response where
  success : Bool
  status : Nat
  errorCode : Option String := none
  message : String := ""
  applicationId : Option Nat := none
  deriving DecidableEq

/-- `ErrorStatusCodes` of src/lib/errorHandler.js. -/
def errorStatusCode : String → Nat
  | "INVALID_REQUEST" => 400
  | "MISSING_FILES" => 400
  | "INVALID_FILE_TYPE" => 400
  | "FILE_SIZE_EXCEEDED" => 413
  | "INVALID_MIME_TYPE" => 400
  | "VALIDATION_FAILED" => 400
  | "ORIGIN_BLOCKED" => 401
  | "UNAUTHORIZED" => 401
  | "CLOUDINARY_UPLOAD_FAILED" => 500
  | "DATABASE_ERROR" => 500
  | "INTERNAL_ERROR" => 500
  | _ => 500

/-- `createErrorResponse(errorCode, message?)` of src/lib/errorHandler.js. -/
def createErrorResponse (code : String) (message : String) : Response :=
  { success := false, status := errorStatusCode code, errorCode := some code,
    message := message }

/-- Inputs of `POST /api/applications` (v1 route) that the embedded pipeline
branches on, together with the outcomes of its external calls. -/
structure V1Input where
  connectOk : Bool
  connectErrStatus : Nat
  photograph : Option JsFile
  resume : Option JsFile
  emailAddress : String
  photoUpload : UploadOutcome
  resumeUpload : UploadOutcome
  saveOk : Bool
  saveErrStatus : Nat
  deriving DecidableEq

/-- `POST /api/applications` (v1): connect, require both files, inline
type/size checks, upload photograph then resume, duplicate-email `findOne`
(HTTP 409 on a hit), then `Application.save` (inserting the normalized
email). -/
def postV1 (db : DB) (inp : V1Input) : Response × DB :=
  if !inp.connectOk then
    ({ success := false, status := inp.connectErrStatus,
       message := "MongoDB connection failed" }, db)
  else
    match inp.photograph, inp.resume with
    | none, _ =>
      ({ success := false, status := 400,
         message := "Photograph and resume are required" }, db)
    | _, none =>
      ({ success := false, status := 400,
         message := "Photograph and resume are required" }, db)
    | some photograph, some resume =>
      if !listStartsWith "image/".toList photograph.type.toList then
        ({ success := false, status := 400,
           message := "Photograph must be an image file" }, db)
      else if resume.type ≠ "application/pdf" then
        ({ success := false, status := 400,
           message := "Resume must be a PDF file" }, db)
      else if photograph.size > 5 * 1024 * 1024 then
        ({ success := false, status := 400,
           message := "Photograph size must be less than 5MB" }, db)
      else if resume.size > 10 * 1024 * 1024 then
        ({ success := false, status := 400,
           message := "Resume size must be less than 10MB" }, db)
      else
        match inp.photoUpload with
        | .err _ =>
          ({ success := false, status := 500,
             message := "Failed to upload photograph" }, db)
        | .ok _ _ =>
          match inp.resumeUpload with
          | .err _ =>
            ({ success := false, status := 500,
               message := "Failed to upload resume" }, db)
          | .ok _ _ =>
            if hasDuplicateEmail db inp.emailAddress then
              ({ success := false, status := 409,
                 message := "An application with this email address already exists" },
               db)
            else if inp.saveOk then
              ({ success := true, status := 201,
                 message := "Application submitted successfully",
                 applicationId := some db.nextId },
               { db with
                  applications := db.applications ++
                    [⟨db.nextId, normalizeEmail inp.emailAddress⟩],
                  nextId := db.nextId + 1 })
            else
              ({ success := false, status := inp.saveErrStatus,
                 message := "MongoDB save failed" }, db)

/-- Inputs of `POST /api/applications-v2` (v2 route). `saveResult = some msgs`
models `application.save()` throwing a `ValidationError` with those field
messages, which the route's catch turns into `VALIDATION_FAILED`. -/
structure V2Input where
  contentTypeOk : Bool
  originOk : Bool
  connectOk : Bool
  formDataOk : Bool
  photograph : Option JsFile
  resume : Option JsFile
  emailAddress : String
  photoUpload : UploadOutcome
  resumeUpload : UploadOutcome
  saveResult : Option (List String)
  fileRecordsThrow : Bool
  deriving DecidableEq

/-- `POST /api/applications-v2` (v2): content-type and origin gates, connect,
form-data URL scan, both files required, `validateFile` per file, upload
photograph then resume, duplicate-email `findOne` (answered with
`VALIDATION_FAILED`), `Application.save`, then the best-effort
`FileUpload.create` of both metadata records inside its own try/catch. -/
def postV2 (db : DB) (inp : V2Input) : Response × DB :=
  if !inp.contentTypeOk then
    (createErrorResponse "INVALID_REQUEST" "Content-Type must be multipart/form-data", db)
  else if !inp.originOk then
    (createErrorResponse "ORIGIN_BLOCKED" "Unauthorized origin", db)
  else if !inp.connectOk then
    (createErrorResponse "INTERNAL_ERROR" "An unexpected error occurred", db)
  else if !inp.formDataOk then
    (createErrorResponse "INVALID_REQUEST" "Field contains unauthorized URL", db)
  else
    match inp.photograph, inp.resume with
    | none, _ =>
      (createErrorResponse "MISSING_FILES" "Both photograph and resume are required", db)
    | _, none =>
      (createErrorResponse "MISSING_FILES" "Both photograph and resume are required", db)
    | some photograph, some resume =>
      let photoValidation := Validation.validateFile (some photograph) "IMAGE"
      if !photoValidation.valid then
        (createErrorResponse "INVALID_FILE_TYPE" ((photoValidation.error).getD ""), db)
      else
        let resumeValidation := Validation.validateFile (some resume) "PDF"
        if !resumeValidation.valid then
          (createErrorResponse "INVALID_FILE_TYPE" ((resumeValidation.error).getD ""), db)
        else
          match inp.photoUpload with
          | .err _ =>
            (createErrorResponse "CLOUDINARY_UPLOAD_FAILED" "Failed to upload photograph", db)
          | .ok _ _ =>
            match inp.resumeUpload with
            | .err _ =>
              (createErrorResponse "CLOUDINARY_UPLOAD_FAILED" "Failed to upload resume", db)
            | .ok _ _ =>
              if hasDuplicateEmail db inp.emailAddress then
                (createErrorResponse "VALIDATION_FAILED"
                  "Application with this email already exists", db)
              else
                match inp.saveResult with
                | some msgs =>
                  (createErrorResponse "VALIDATION_FAILED" (String.intercalate ", " msgs), db)
                | none =>
                  let newId := db.nextId
                  let db1 : DB :=
                    { db with
                        applications := db.applications ++
                          [⟨newId, normalizeEmail inp.emailAddress⟩],
                        nextId := newId + 1 }
                  let db2 : DB :=
                    if inp.fileRecordsThrow then db1
                    else { db1 with fileRecords := db1.fileRecords + 2 }
                  ({ success := true, status := 201,
                     applicationId := some newId }, db2)

end Orchestrator

namespace Fixtures

/-- A well-formed JPEG photograph fixture used by concrete witnesses. -/
def photoFile : Validation.JsFile :=
  ⟨"p.jpg".toList, "image/jpeg", 1000, [0xFF, 0xD8, 0xFF]⟩

/-- A well-formed PDF resume fixture used by concrete witnesses. -/
def resumeFile : Validation.JsFile :=
  ⟨"r.pdf".toList, "application/pdf", 1000, [0x25, 0x50, 0x44, 0x46]⟩

end Fixtures

open Validation UploadUtil MongoLib Orchestrator

/-! ## Helper lemmas -/

theorem strip_eq_self_of_no_slash (s : List Char) (h : s.contains '/' = false) :
    stripDotDotSlash s = s := by
  induction s using stripDotDotSlash.induct with
  | case1 rest ih =>
      simp [List.contains_cons] at h
  | case2 c rest hne ih =>
      rw [stripDotDotSlash.eq_def]
      split
      · rename_i r heq
        rw [heq] at h
        simp [List.contains_cons] at h
      · rename_i c' rest' hno heq
        injection heq with h1 h2
        subst h1; subst h2
        have hrest : rest.contains '/' = false := by
          simp [List.contains_cons] at h
          simpa using h.2
        rw [ih hrest]
      · rename_i heq
        exact absurd heq (by simp)
  | case3 => rfl

theorem replaceBadChars_all_good (s : List Char) :
    (replaceBadChars s).all isGoodChar = true := by
  induction s with
  | nil => rfl
  | cons c rest ih =>
      simp only [replaceBadChars, List.map_cons, List.all_cons, Bool.and_eq_true]
      refine ⟨?_, by simpa [replaceBadChars] using ih⟩
      by_cases hg : isGoodChar c
      · simp [hg]
      · simp [hg]
        decide

theorem all_good_take (s : List Char) (n : Nat) (h : s.all isGoodChar = true) :
    (s.take n).all isGoodChar = true := by
  rw [List.all_eq_true] at h ⊢
  intro a ha
  exact h a (List.take_subset n s ha)

theorem sanitizeFilename_all_good (x : List Char) :
    (sanitizeFilename x).all isGoodChar = true :=
  all_good_take _ _ (replaceBadChars_all_good _)

theorem no_slash_of_all_good (s : List Char) (h : s.all isGoodChar = true) :
    s.contains '/' = false := by
  rw [List.all_eq_true] at h
  rw [Bool.eq_false_iff]
  intro hc
  have hmem : '/' ∈ s := by simpa using hc
  have : isGoodChar '/' = true := h _ hmem
  simp [isGoodChar] at this

theorem replaceBadChars_of_all_good (s : List Char) (h : s.all isGoodChar = true) :
    replaceBadChars s = s := by
  induction s with
  | nil => rfl
  | cons c rest ih =>
      simp only [List.all_cons, Bool.and_eq_true] at h
      simp only [replaceBadChars, List.map_cons]
      rw [if_pos h.1]
      congr 1
      exact ih h.2

theorem sanitizeFilename_idem (x : List Char) :
    sanitizeFilename (sanitizeFilename x) = sanitizeFilename x := by
  have hall : (sanitizeFilename x).all isGoodChar = true := sanitizeFilename_all_good x
  have hns : (sanitizeFilename x).contains '/' = false := no_slash_of_all_good _ hall
  show (replaceBadChars (stripDotDotSlash (sanitizeFilename x))).take 100 = sanitizeFilename x
  rw [strip_eq_self_of_no_slash _ hns, replaceBadChars_of_all_good _ hall]
  show ((replaceBadChars (stripDotDotSlash x)).take 100).take 100 = sanitizeFilename x
  rw [List.take_take]
  rfl

theorem startsWith_append_self (p r : List Char) :
    listStartsWith p (p ++ r) = true := by
  induction p with
  | nil => rfl
  | cons c cs ih => simp [listStartsWith, ih]

theorem endsWith_append_self (t s : List Char) :
    listEndsWith t (s ++ t) = true := by
  unfold listEndsWith
  rw [List.reverse_append]
  exact startsWith_append_self _ _

theorem validateFileSize_zero (f : JsFile) (cat : String) (h : f.size = 0) :
    (validateFileSize f cat).valid = false := by
  unfold validateFileSize
  cases hc : fileSizeLimitsFor cat with
  | none => rfl
  | some m => simp [h]

theorem validateFile_valid_iff (f : JsFile) (cat : String) :
    (validateFile (some f) cat).valid = true ↔
      containsExternalUrl f.name = false ∧
      (validateMimeType f cat).valid = true ∧
      (validateFileSize f cat).valid = true ∧
      validateFileSignature f.content f.type = true := by
  unfold validateFile
  by_cases h1 : containsExternalUrl f.name
  · simp [h1]
  · by_cases h2 : (validateMimeType f cat).valid
    · by_cases h3 : (validateFileSize f cat).valid
      · by_cases h4 : validateFileSignature f.content f.type
        · simp [h1, h2, h3, h4]
        · simp [h1, h2, h3, h4]
      · simp [h1, h2, h3]
    · simp [h1, h2]

theorem validateFile_size_false (f : JsFile) (cat : String)
    (h : (validateFileSize f cat).valid = false) :
    (validateFile (some f) cat).valid = false := by
  by_cases hv : (validateFile (some f) cat).valid = true
  · rcases (validateFile_valid_iff f cat).mp hv with ⟨-, -, h3, -⟩
    rw [h] at h3
    exact absurd h3 (by simp)
  · simpa using hv

theorem validateFileSize_image_eq (f : JsFile) :
    validateFileSize f "IMAGE" =
      if f.size = 0 then { valid := false, error := some "File is empty" }
      else if f.size > 5 * 1024 * 1024 then
        { valid := false, error := some "File size exceeds limit" }
      else { valid := true } := rfl

theorem validateFileSize_pdf_eq (f : JsFile) :
    validateFileSize f "PDF" =
      if f.size = 0 then { valid := false, error := some "File is empty" }
      else if f.size > 10 * 1024 * 1024 then
        { valid := false, error := some "File size exceeds limit" }
      else { valid := true } := rfl

theorem validateFileSize_image_gt (f : JsFile) (h : f.size > 5 * 1024 * 1024) :
    (validateFileSize f "IMAGE").valid = false := by
  rw [validateFileSize_image_eq, if_neg (by omega), if_pos (by omega)]

theorem validateFileSize_pdf_gt (f : JsFile) (h : f.size > 10 * 1024 * 1024) :
    (validateFileSize f "PDF").valid = false := by
  rw [validateFileSize_pdf_eq, if_neg (by omega), if_pos (by omega)]

/-! ## Claim theorems -/

/-- C2: for every file and category, `validateFile` returns invalid when the
size is 0 or strictly exceeds the category ceiling (5 MiB for IMAGE, 10 MiB
for PDF); the size check (`validateFileSize`) passes at exactly the ceiling
and fails one byte over it. -/
theorem size_validation_bounds (f : JsFile) :
    (∀ cat : String, f.size = 0 →
      (validateFile (some f) cat).valid = false) ∧
    (f.size > 5 * 1024 * 1024 →
      (validateFile (some f) "IMAGE").valid = false) ∧
    (f.size > 10 * 1024 * 1024 →
      (validateFile (some f) "PDF").valid = false) ∧
    (f.size = 5 * 1024 * 1024 →
      (validateFileSize f "IMAGE").valid = true) ∧
    (f.size = 5 * 1024 * 1024 + 1 →
      (validateFileSize f "IMAGE").valid = false) ∧
    (f.size = 10 * 1024 * 1024 →
      (validateFileSize f "PDF").valid = true) ∧
    (f.size = 10 * 1024 * 1024 + 1 →
      (validateFileSize f "PDF").valid = false) := by
  refine ⟨fun cat h0 => validateFile_size_false f cat (validateFileSize_zero f cat h0),
    fun h => validateFile_size_false f _ (validateFileSize_image_gt f h),
    fun h => validateFile_size_false f _ (validateFileSize_pdf_gt f h),
    fun h => ?_, fun h => validateFileSize_image_gt f (by omega),
    fun h => ?_, fun h => validateFileSize_pdf_gt f (by omega)⟩
  · rw [validateFileSize_image_eq, if_neg (by omega), if_neg (by omega)]
  · rw [validateFileSize_pdf_eq, if_neg (by omega), if_neg (by omega)]

/-- Witness for C2 at concrete sizes: empty file, one byte over each ceiling,
and exactly at each ceiling. -/
theorem size_validation_bounds_witness :
    (validateFile (some ⟨[], "image/jpeg", 0, []⟩) "IMAGE").valid = false ∧
    (validateFile (some ⟨[], "image/jpeg", 5242881, []⟩) "IMAGE").valid = false ∧
    (validateFile (some ⟨[], "application/pdf", 10485761, []⟩) "PDF").valid = false ∧
    (validateFileSize ⟨[], "image/jpeg", 5242880, []⟩ "IMAGE").valid = true ∧
    (validateFileSize ⟨[], "image/jpeg", 5242881, []⟩ "IMAGE").valid = false ∧
    (validateFileSize ⟨[], "application/pdf", 10485760, []⟩ "PDF").valid = true ∧
    (validateFileSize ⟨[], "application/pdf", 10485761, []⟩ "PDF").valid = false :=
  ⟨(size_validation_bounds _).1 "IMAGE" rfl,
   (size_validation_bounds _).2.1 (by norm_num),
   (size_validation_bounds _).2.2.1 (by norm_num),
   (size_validation_bounds _).2.2.2.1 (by norm_num),
   (size_validation_bounds _).2.2.2.2.1 (by norm_num),
   (size_validation_bounds _).2.2.2.2.2.1 (by norm_num),
   (size_validation_bounds _).2.2.2.2.2.2 (by norm_num)⟩

/-- C3 counterexample: the claim says sanitized output never contains the
substring `..`, but `sanitizeFilename ".."` is `".."` — only literal `../`
sequences are removed, and a bare `..` (dots are in the allowed class)
survives unchanged. -/
theorem sanitize_dotdot_counterexample :
    sanitizeFilename "..".toList = "..".toList ∧
    hasDotDot (sanitizeFilename "..".toList) = true :=
  ⟨rfl, rfl⟩

/-- C3 (amended): `sanitizeFilename` is idempotent, its output never contains
`/`, and every output character lies in `[A-Za-z0-9._-]`; the original
claim's further guarantee that the output never contains `..` is false (see
the counterexample). -/
theorem sanitize_idempotent_charset (x : List Char) :
    sanitizeFilename (sanitizeFilename x) = sanitizeFilename x ∧
    (sanitizeFilename x).contains '/' = false ∧
    (sanitizeFilename x).all isGoodChar = true :=
  ⟨sanitizeFilename_idem x,
   no_slash_of_all_good _ (sanitizeFilename_all_good x),
   sanitizeFilename_all_good x⟩

/-- C4 counterexample: the claim says truncation to 100 characters preserves
the file extension, but `sanitizeFilename` (src/lib/validation.js) plainly
cuts at 100: a 101-character name ending in `.pdf` loses its final `f`. -/
theorem sanitize_extension_counterexample :
    listEndsWith ".pdf".toList (List.replicate 97 'a' ++ ".pdf".toList) = true ∧
    listEndsWith ".pdf".toList
      (sanitizeFilename (List.replicate 97 'a' ++ ".pdf".toList)) = false :=
  ⟨rfl, rfl⟩

/-- C4 (amended): `sanitizeFilename` (validation.js) strips `../`, replaces
characters outside `[A-Za-z0-9._-]` with `_`, and truncates to 100 characters
WITHOUT preserving the extension; the upload-utility variant
`sanitizeFileName` does keep the extension (the segment of the sanitized,
pre-truncation string from its last dot) as a suffix of its output. -/
theorem sanitize_truncation_extension :
    (∀ x : List Char, (sanitizeFilename x).length ≤ 100 ∧
        (sanitizeFilename x).all isGoodChar = true) ∧
    (∀ x : List Char,
        listEndsWith
          ((replaceBadChars (stripDotDotSlash x)).drop
            (lastIndexOfDot (replaceBadChars (stripDotDotSlash x))).toNat)
          (sanitizeFileName x) = true) := by
  constructor
  · intro x
    refine ⟨?_, sanitizeFilename_all_good x⟩
    show ((replaceBadChars (stripDotDotSlash x)).take 100).length ≤ 100
    rw [List.length_take]
    omega
  · intro x
    simp only [sanitizeFileName]
    set s := replaceBadChars (stripDotDotSlash x) with hs
    by_cases hlen : s.length > 100
    · rw [if_pos hlen]
      exact endsWith_append_self _ _
    · rw [if_neg hlen]
      have h2 := endsWith_append_self (s.drop (lastIndexOfDot s).toNat)
        (s.take (lastIndexOfDot s).toNat)
      rwa [List.take_append_drop] at h2

/-- C5 counterexample: the claim says the declared MIME type `image/jpg` is
accepted for category image, but `validateMimeType` (whose allow-list is
`ALLOWED_MIME_TYPES.IMAGE = [image/jpeg, image/png, image/webp]`) rejects
it. -/
theorem mime_jpg_counterexample :
    (validateMimeType ⟨[], "image/jpg", 1, []⟩ "IMAGE").valid = false := by
  decide

/-- C5 (amended): `validateMimeType` accepts exactly
`{image/jpeg, image/png, image/webp}` for IMAGE and exactly
`{application/pdf}` for PDF — `image/jpg` is NOT accepted there; only the
upload utility's `FILE_CONFIG` allow-list additionally contains `image/jpg`,
and its `validateFileType` accepts such a file. -/
theorem mime_allowlist_exact :
    (∀ f : JsFile, (validateMimeType f "IMAGE").valid =
        ["image/jpeg", "image/png", "image/webp"].contains f.type) ∧
    (∀ f : JsFile, (validateMimeType f "PDF").valid =
        ["application/pdf"].contains f.type) ∧
    fileConfigAllowedTypes "image" =
      some ["image/jpeg", "image/jpg", "image/png", "image/webp"] ∧
    (validateFileType ⟨"p.jpg".toList, "image/jpg", 1, []⟩ "image").valid = true := by
  have himg : ∀ f : JsFile, validateMimeType f "IMAGE" =
      if (["image/jpeg", "image/png", "image/webp"] : List String).contains f.type then
        { valid := true }
      else { valid := false, error := some "Invalid MIME type" } := fun _ => rfl
  have hpdf : ∀ f : JsFile, validateMimeType f "PDF" =
      if (["application/pdf"] : List String).contains f.type then
        { valid := true }
      else { valid := false, error := some "Invalid MIME type" } := fun _ => rfl
  refine ⟨fun f => ?_, fun f => ?_, rfl, by decide⟩
  · rw [himg]
    by_cases h : (["image/jpeg", "image/png", "image/webp"] : List String).contains f.type
    · rw [if_pos h, h]
    · rw [if_neg h]
      simp only [Bool.not_eq_true] at h
      rw [h]
  · rw [hpdf]
    by_cases h : (["application/pdf"] : List String).contains f.type
    · rw [if_pos h, h]
    · rw [if_neg h]
      simp only [Bool.not_eq_true] at h
      rw [h]

/-- C6: when the leading bytes of the content do not match any known
signature for the declared MIME type, `validateFile` returns invalid with
the content-mismatch message, even though the URL-name, MIME-type and size
checks all pass; the signature table holds exactly the bytes the claim
lists (JPEG `FF D8 FF`, PNG `89 50 4E 47`, WEBP `52 49 46 46`,
PDF `25 50 44 46`). -/
theorem signature_mismatch_rejected (f : JsFile) (cat : String)
    (hurl : containsExternalUrl f.name = false)
    (hmime : (validateMimeType f cat).valid = true)
    (hsize : (validateFileSize f cat).valid = true)
    (hsig : validateFileSignature f.content f.type = false) :
    validateFile (some f) cat =
      { valid := false, error := some "File content does not match declared type" } ∧
    fileSignaturesFor "image/jpeg" = some [[0xFF, 0xD8, 0xFF]] ∧
    fileSignaturesFor "image/png" = some [[0x89, 0x50, 0x4E, 0x47]] ∧
    fileSignaturesFor "image/webp" = some [[0x52, 0x49, 0x46, 0x46]] ∧
    fileSignaturesFor "application/pdf" = some [[0x25, 0x50, 0x44, 0x46]] := by
  refine ⟨?_, rfl, rfl, rfl, rfl⟩
  unfold validateFile
  simp [hurl, hmime, hsize, hsig]

/-- Witness for C6: a `.jpg`-named, `image/jpeg`-typed file of legal size
whose first bytes are `00 01 02` rather than `FF D8 FF`. -/
theorem signature_mismatch_rejected_witness :
    validateFile (some ⟨"p.jpg".toList, "image/jpeg", 1000, [0, 1, 2]⟩) "IMAGE" =
      { valid := false, error := some "File content does not match declared type" } ∧
    fileSignaturesFor "image/jpeg" = some [[0xFF, 0xD8, 0xFF]] ∧
    fileSignaturesFor "image/png" = some [[0x89, 0x50, 0x4E, 0x47]] ∧
    fileSignaturesFor "image/webp" = some [[0x52, 0x49, 0x46, 0x46]] ∧
    fileSignaturesFor "application/pdf" = some [[0x25, 0x50, 0x44, 0x46]] :=
  signature_mismatch_rejected _ _ (by decide) (by decide) (by decide) (by decide)

/-- C10: a file whose name starts with `http://` or `https://`
(case-insensitively, which is what `containsExternalUrl` tests) is rejected
by `validateFile` with "External URLs not allowed" for every declared type,
size and content — i.e. before the MIME-type, size and signature checks can
influence the outcome. -/
theorem external_url_rejected_first (f : JsFile) (cat : String)
    (h : containsExternalUrl f.name = true) :
    validateFile (some f) cat =
      { valid := false, error := some "External URLs not allowed" } := by
  unfold validateFile
  simp [h]

/-- Witness for C10: an upper-case `HTTPS://` name on an otherwise perfectly
valid JPEG file. -/
theorem external_url_rejected_first_witness :
    validateFile
      (some ⟨"HTTPS://evil.example/x.jpg".toList, "image/jpeg", 5, [0xFF, 0xD8, 0xFF]⟩)
      "IMAGE" =
      { valid := false, error := some "External URLs not allowed" } :=
  external_url_rejected_first _ _ (by decide)

/-- C9: when the awaited connection attempt fails, `connectDB` both returns
the error and leaves the cache with `conn` and `promise` cleared, and a
subsequent `connectDB` call on that cleared cache initiates a fresh
connection attempt (its started-new-promise flag is true). -/
theorem connect_failure_clears_cache (cache : Cache) (attemptId a2 : Nat)
    (e : String) (r2 : Except String Nat)
    (h : cache.conn = none) :
    (connectDB cache attemptId (Except.error e)).1 = Except.error e ∧
    (connectDB cache attemptId (Except.error e)).2.1 = ⟨none, none⟩ ∧
    (connectDB (connectDB cache attemptId (Except.error e)).2.1
      a2 r2).2.2 = true := by
  obtain ⟨c, p⟩ := cache
  simp only at h
  subst h
  refine ⟨rfl, rfl, ?_⟩
  cases r2 <;> rfl

/-- Witness for C9: a failing attempt against a cache that already held an
in-flight promise, followed by a successful fresh attempt. -/
theorem connect_failure_clears_cache_witness :
    (connectDB ⟨none, some 3⟩ 7 (Except.error "boom")).1 =
      Except.error "boom" ∧
    (connectDB ⟨none, some 3⟩ 7 (Except.error "boom")).2.1 = ⟨none, none⟩ ∧
    (connectDB (connectDB ⟨none, some 3⟩ 7
      (Except.error "boom")).2.1 8 (Except.ok 1)).2.2 = true :=
  connect_failure_clears_cache ⟨none, some 3⟩ 7 8 "boom" (Except.ok 1) rfl

/-- C7: if the resume upload fails (returns success:false) while the
photograph upload succeeded, both routes produce a failure response and the
stored application state is unchanged — in particular no `ApplicationRecord`
is created (the only branch that writes one requires a successful resume
upload). -/
theorem resume_upload_failure_no_save (db : DB) (i1 : V1Input) (i2 : V2Input)
    (m1 m2 u1 p1 u2 p2 : String)
    (h1ru : i1.resumeUpload = .err m1)
    (h2ru : i2.resumeUpload = .err m2)
    (h1pu : i1.photoUpload = .ok u1 p1)
    (h2pu : i2.photoUpload = .ok u2 p2) :
    (postV1 db i1).1.success = false ∧ (postV1 db i1).2 = db ∧
    (postV2 db i2).1.success = false ∧ (postV2 db i2).2 = db := by
  refine ⟨?_, ?_, ?_, ?_⟩
  · unfold postV1; simp only [h1pu, h1ru]
    repeat' split
    all_goals rfl
  · unfold postV1; simp only [h1pu, h1ru]
    repeat' split
    all_goals rfl
  · unfold postV2; simp only [h2pu, h2ru]
    repeat' split
    all_goals rfl
  · unfold postV2; simp only [h2pu, h2ru]
    repeat' split
    all_goals rfl

/-- Witness for C7: concrete submissions whose photograph upload succeeded
and whose resume upload failed, on an empty database. -/
theorem resume_upload_failure_no_save_witness :
    (postV1 ⟨[], 0, 0⟩
      ⟨true, 503, some Fixtures.photoFile, some Fixtures.resumeFile,
        "a@b.com", .ok "u1" "pid1", .err "remote error", true, 500⟩).1.success = false ∧
    (postV1 ⟨[], 0, 0⟩
      ⟨true, 503, some Fixtures.photoFile, some Fixtures.resumeFile,
        "a@b.com", .ok "u1" "pid1", .err "remote error", true, 500⟩).2 = ⟨[], 0, 0⟩ ∧
    (postV2 ⟨[], 0, 0⟩
      ⟨true, true, true, true, some Fixtures.photoFile, some Fixtures.resumeFile,
        "a@b.com", .ok "u2" "pid2", .err "remote error", none, false⟩).1.success = false ∧
    (postV2 ⟨[], 0, 0⟩
      ⟨true, true, true, true, some Fixtures.photoFile, some Fixtures.resumeFile,
        "a@b.com", .ok "u2" "pid2", .err "remote error", none, false⟩).2 = ⟨[], 0, 0⟩ :=
  resume_upload_failure_no_save _ _ _ _ _ _ _ _ _ rfl rfl rfl rfl

/-- C8: in the v2 route, when the application record write succeeds and the
subsequent `FileUpload.create` of both metadata records throws, the response
is still the 201 success carrying the saved application's id, and it is
literally the same response as when the metadata writes succeed. -/
theorem file_metadata_failure_still_success (db : DB) (i : V2Input)
    (p r : JsFile) (u1 pu1 u2 pu2 : String)
    (hct : i.contentTypeOk = true) (ho : i.originOk = true)
    (hc : i.connectOk = true) (hf : i.formDataOk = true)
    (hp : i.photograph = some p) (hr : i.resume = some r)
    (hpv : (validateFile (some p) "IMAGE").valid = true)
    (hrv : (validateFile (some r) "PDF").valid = true)
    (hpu : i.photoUpload = .ok u1 pu1) (hru : i.resumeUpload = .ok u2 pu2)
    (hdup : hasDuplicateEmail db i.emailAddress = false)
    (hsave : i.saveResult = none)
    (hthrow : i.fileRecordsThrow = true) :
    (postV2 db i).1 =
      { success := true, status := 201, applicationId := some db.nextId } ∧
    (postV2 db i).1 = (postV2 db { i with fileRecordsThrow := false }).1 := by
  constructor
  · unfold postV2
    simp [hct, ho, hc, hf, hp, hr, hpv, hrv, hpu, hru, hdup, hsave]
  · unfold postV2
    simp [hct, ho, hc, hf, hp, hr, hpv, hrv, hpu, hru, hdup, hsave, hthrow]

/-- Witness for C8: a fully valid submission on an empty database whose two
file-metadata writes throw. -/
theorem file_metadata_failure_still_success_witness :
    (postV2 ⟨[], 0, 0⟩
      ⟨true, true, true, true, some Fixtures.photoFile, some Fixtures.resumeFile,
        "a@b.com", .ok "u1" "pid1", .ok "u2" "pid2", none, true⟩).1 =
      { success := true, status := 201, applicationId := some 0 } ∧
    (postV2 ⟨[], 0, 0⟩
      ⟨true, true, true, true, some Fixtures.photoFile, some Fixtures.resumeFile,
        "a@b.com", .ok "u1" "pid1", .ok "u2" "pid2", none, true⟩).1 =
    (postV2 ⟨[], 0, 0⟩
      ⟨true, true, true, true, some Fixtures.photoFile, some Fixtures.resumeFile,
        "a@b.com", .ok "u1" "pid1", .ok "u2" "pid2", none, false⟩).1 :=
  file_metadata_failure_still_success _ _ _ _ _ _ _ _ rfl rfl rfl rfl rfl rfl
    (by decide) (by decide) rfl rfl rfl rfl rfl

/-- C1 counterexample: the claim says the second, duplicate-email submission
fails at HTTP 409, but in the v2 route it fails with `VALIDATION_FAILED` at
HTTP 400 — here a first v2 submission succeeds (201), and a second one whose
email is equal to it after case/whitespace normalization is answered with
status 400, not 409 (and adds no record). -/
theorem duplicate_email_counterexample :
    (postV2 ⟨[], 0, 0⟩
      ⟨true, true, true, true,
        some ⟨"p.jpg".toList, "image/jpeg", 1000, [0xFF, 0xD8, 0xFF]⟩,
        some ⟨"r.pdf".toList, "application/pdf", 1000, [0x25, 0x50, 0x44, 0x46]⟩,
        "jane@example.com", .ok "u1" "pid1", .ok "u2" "pid2", none, false⟩).1.status = 201 ∧
    (postV2 (postV2 ⟨[], 0, 0⟩
      ⟨true, true, true, true,
        some ⟨"p.jpg".toList, "image/jpeg", 1000, [0xFF, 0xD8, 0xFF]⟩,
        some ⟨"r.pdf".toList, "application/pdf", 1000, [0x25, 0x50, 0x44, 0x46]⟩,
        "jane@example.com", .ok "u1" "pid1", .ok "u2" "pid2", none, false⟩).2
      ⟨true, true, true, true,
        some ⟨"p.jpg".toList, "image/jpeg", 1000, [0xFF, 0xD8, 0xFF]⟩,
        some ⟨"r.pdf".toList, "application/pdf", 1000, [0x25, 0x50, 0x44, 0x46]⟩,
        "Jane@Example.com ", .ok "u3" "pid3", .ok "u4" "pid4", none, false⟩).1.status = 400 ∧
    (postV2 (postV2 ⟨[], 0, 0⟩
      ⟨true, true, true, true,
        some ⟨"p.jpg".toList, "image/jpeg", 1000, [0xFF, 0xD8, 0xFF]⟩,
        some ⟨"r.pdf".toList, "application/pdf", 1000, [0x25, 0x50, 0x44, 0x46]⟩,
        "jane@example.com", .ok "u1" "pid1", .ok "u2" "pid2", none, false⟩).2
      ⟨true, true, true, true,
        some ⟨"p.jpg".toList, "image/jpeg", 1000, [0xFF, 0xD8, 0xFF]⟩,
        some ⟨"r.pdf".toList, "application/pdf", 1000, [0x25, 0x50, 0x44, 0x46]⟩,
        "Jane@Example.com ", .ok "u3" "pid3", .ok "u4" "pid4", none, false⟩).1.status ≠ 409 ∧
    (postV2 (postV2 ⟨[], 0, 0⟩
      ⟨true, true, true, true,
        some ⟨"p.jpg".toList, "image/jpeg", 1000, [0xFF, 0xD8, 0xFF]⟩,
        some ⟨"r.pdf".toList, "application/pdf", 1000, [0x25, 0x50, 0x44, 0x46]⟩,
        "jane@example.com", .ok "u1" "pid1", .ok "u2" "pid2", none, false⟩).2
      ⟨true, true, true, true,
        some ⟨"p.jpg".toList, "image/jpeg", 1000, [0xFF, 0xD8, 0xFF]⟩,
        some ⟨"r.pdf".toList, "application/pdf", 1000, [0x25, 0x50, 0x44, 0x46]⟩,
        "Jane@Example.com ", .ok "u3" "pid3", .ok "u4" "pid4", none, false⟩).2.applications.length = 1 := by
  refine ⟨rfl, rfl, by decide, rfl⟩

/-- C1 (amended): a submission whose email equals (after case/whitespace
normalization) the email of an already-stored application is rejected by
both routes without creating a second `ApplicationRecord`; the v1 route
answers HTTP 409, while the v2 route answers `VALIDATION_FAILED` at
HTTP 400 (not 409 as claimed). -/
theorem duplicate_email_second_submission
    (db : DB) (i1 : V1Input) (i2 : V2Input) (p1 r1 p2 r2 : JsFile)
    (u1 pu1 u2 pu2 v1 pv1 v2 pv2 : String)
    (hdup1 : hasDuplicateEmail db i1.emailAddress = true)
    (hdup2 : hasDuplicateEmail db i2.emailAddress = true)
    (h1c : i1.connectOk = true)
    (h1p : i1.photograph = some p1) (h1r : i1.resume = some r1)
    (h1pt : listStartsWith "image/".toList p1.type.toList = true)
    (h1rt : r1.type = "application/pdf")
    (h1ps : p1.size ≤ 5 * 1024 * 1024) (h1rs : r1.size ≤ 10 * 1024 * 1024)
    (h1pu : i1.photoUpload = .ok u1 pu1) (h1ru : i1.resumeUpload = .ok u2 pu2)
    (h2ct : i2.contentTypeOk = true) (h2o : i2.originOk = true)
    (h2c : i2.connectOk = true) (h2f : i2.formDataOk = true)
    (h2p : i2.photograph = some p2) (h2r : i2.resume = some r2)
    (h2pv : (validateFile (some p2) "IMAGE").valid = true)
    (h2rv : (validateFile (some r2) "PDF").valid = true)
    (h2pu : i2.photoUpload = .ok v1 pv1) (h2ru : i2.resumeUpload = .ok v2 pv2) :
    postV1 db i1 =
      ({ success := false, status := 409,
         message := "An application with this email address already exists" }, db) ∧
    postV2 db i2 =
      (createErrorResponse "VALIDATION_FAILED"
        "Application with this email already exists", db) := by
  constructor
  · have hp5 : ¬ (p1.size > 5 * 1024 * 1024) := by omega
    have hr10 : ¬ (r1.size > 10 * 1024 * 1024) := by omega
    have h1pt' : listStartsWith ['i', 'm', 'a', 'g', 'e', '/'] p1.type.data = true := h1pt
    unfold postV1
    simp [h1c, h1p, h1r, h1pu, h1ru, h1pt', h1rt, hdup1, hp5, hr10]
  · unfold postV2
    simp [h2ct, h2o, h2c, h2f, h2p, h2r, h2pv, h2rv, h2pu, h2ru, hdup2]

/-- Witness for C1 (amended): a stored application with email
`jane@example.com` and a second submission using `Jane@Example.com ` (equal
after lower-casing and trimming) through each route. -/
theorem duplicate_email_second_submission_witness :
    postV1 ⟨[⟨0, "jane@example.com"⟩], 0, 1⟩
      ⟨true, 503, some Fixtures.photoFile, some Fixtures.resumeFile,
        "Jane@Example.com ", .ok "u1" "pid1", .ok "u2" "pid2", true, 500⟩ =
      ({ success := false, status := 409,
         message := "An application with this email address already exists" },
       ⟨[⟨0, "jane@example.com"⟩], 0, 1⟩) ∧
    postV2 ⟨[⟨0, "jane@example.com"⟩], 0, 1⟩
      ⟨true, true, true, true, some Fixtures.photoFile, some Fixtures.resumeFile,
        "Jane@Example.com ", .ok "u3" "pid3", .ok "u4" "pid4", none, false⟩ =
      (createErrorResponse "VALIDATION_FAILED"
        "Application with this email already exists",
       ⟨[⟨0, "jane@example.com"⟩], 0, 1⟩) :=
  duplicate_email_second_submission _ _ _ _ _ _ _ _ _ _ _ _ _ _ _
    (by decide) (by decide) rfl rfl rfl (by decide) rfl (by decide) (by decide)
    rfl rfl rfl rfl rfl rfl rfl rfl (by decide) (by decide) rfl rfl

end Forms
